import Mathlib

/-!
# Verification of the NightCoder vote ledger and reputation core

Shallow embedding of the vote-ledger / reputation-adjustment core of the
`django_forum` repository:

* `core/repositories.py` — `BaseVoteRepository`, `DjangoVoteRepository`,
  `MemoryVoteRepository`, `CachedVoteRepository`;
* `core/base.py` — `BaseVoteQuery` (the second, conflicting `get_vote_count`);
* `core/calculators.py` — `BasicReputationCalculator`;
* `core/services.py` — `ReputationService.apply_reputation_change`;
* `core/mixins.py` — `VoteableMixin.vote` and its reputation orchestration.

Modelling conventions:

* Python strings stay `String` (vote types are the strings `"up"`/`"down"`,
  transition kinds are `"added"`/`"removed"`/`"updated"`/`"unauthorized"`/
  `"self_vote"`).
* A Django user object is `Usr`: it always has a primary key `pk`
  (`get_user_id` in `repositories.py` resolves users through `pk` first).
  The `is_authenticated` attribute may be missing on arbitrary objects, so it
  is modelled by the pair `hasIsAuth`/`isAuth`; reading the attribute on an
  object that lacks it is a Python `AttributeError`, modelled as
  `Except.error ()`, while `getattr(user, 'is_authenticated', True)` is total.
* A voteable target object is `Obj`: `ContentType.objects.get_for_model(obj)`
  is the numeric field `ctype` (one per model class), `obj.pk` is `pk`,
  `obj.__class__.__name__` is `className`, and the optional `author`
  attribute is `author : Option Usr` (`hasattr(self, "author")` ↔ `isSome`).
* `Vote` model rows (`votes/models.py` is only consumed here) carry
  `content_type`, `object_id`, `user` and `vote_type`; the `created_at`
  timestamp is never read by any of the embedded code and is omitted.
* `MemoryVoteRepository` stores votes as Python dicts
  `{"user_id": ..., "object_id": ..., "vote_type": ...}` — `MemVote`.
  Crucially, a dict has **no attributes** named after its keys, so
  `getattr(v, 'vote_type', None)` on a memory record is always `None`;
  this is made explicit by `memVoteTypeAttr` below.
-/

structure Usr where
  pk : Nat
  hasIsAuth : Bool
  isAuth : Bool
deriving DecidableEq, Repr

structure Obj where
  ctype : Nat
  pk : Nat
  className : String
  author : Option Usr
deriving DecidableEq, Repr

/-- A row of the memory backend: the dict
`{"user_id": ..., "object_id": ..., "vote_type": ...}` appended by
`MemoryVoteRepository.vote`. -/
structure MemVote where
  user_id : Nat
  object_id : Nat
  vote_type : String
deriving DecidableEq, Repr

/-- A row of the `Vote` model as used by `DjangoVoteRepository`
(`content_type`, `object_id`, `user`, `vote_type`). -/
structure DjVote where
  ctype : Nat
  object_id : Nat
  user_id : Nat
  vote_type : String
deriving DecidableEq, Repr

/-- `getattr(user, 'is_authenticated', default-absent)`: `some` iff the
attribute exists on the object. -/
def isAuthAttr (u : Usr) : Option Bool :=
  if u.hasIsAuth then some u.isAuth else none

/-- `get_user_id(user)` from `core/repositories.py`: every modelled user
object has a `pk` attribute, so the first `hasattr(user, 'pk')` branch
applies. -/
def get_user_id (u : Usr) : Nat := u.pk

/-- `getattr(v, 'vote_type', None)` on a memory record.  Memory records are
Python dicts, and a dict exposes its keys by subscription, not as
attributes, so the lookup always falls back to `None`. -/
def memVoteTypeAttr (_v : MemVote) : Option String := none

/-- `getattr(v, 'vote_type', None)` on a `Vote` model instance: model fields
are real attributes. -/
def djVoteTypeAttr (v : DjVote) : Option String := some v.vote_type

/-! ## MemoryVoteRepository (`core/repositories.py`, lines 107–152)

The mutator scans `self.votes` for the first record matching
`(obj.pk, get_user_id(user))`; `memVoteCore` mirrors that scan: `pop` of the
first match models the `"removed"` branch, in-place assignment of
`vote_type` models the `"updated"` branch, and `none` falls through to the
append/`"added"` branch. -/

/-- The scan shared by `MemoryVoteRepository.vote` and `get_user_vote`: the
first record with the given `object_id` and `user_id`. -/
def memScan : List MemVote → Nat → Nat → Option MemVote
  | [], _, _ => none
  | v :: rest, opk, upk =>
    if v.object_id = opk ∧ v.user_id = upk then some v
    else memScan rest opk upk

/-- The in-`vote` scan, returning the kind and the updated list when an
existing record is found: the first record with the given `object_id` and
`user_id`, where `pop` of the first match models the `"removed"` branch
and in-place assignment of `vote_type` models the `"updated"` branch. -/
def memVoteAux (votes : List MemVote) (opk upk : Nat) (vt : String) :
    Option (String × List MemVote) :=
  match votes with
  | [] => none
  | v :: rest =>
    if v.object_id = opk ∧ v.user_id = upk then
      if v.vote_type = vt then
        some ("removed", rest)
      else
        some ("updated", { v with vote_type := vt } :: rest)
    else
      match memVoteAux rest opk upk vt with
      | some (k, rest') => some (k, v :: rest')
      | none => none

/-- `MemoryVoteRepository.vote` on raw keys. -/
def memVoteCore (votes : List MemVote) (opk upk : Nat) (vt : String) :
    String × List MemVote :=
  match memVoteAux votes opk upk vt with
  | some r => r
  | none => ("added", votes ++ [⟨upk, opk, vt⟩])

/-- `MemoryVoteRepository.vote(obj, user, vote_type)`. -/
def memVote (votes : List MemVote) (obj : Obj) (user : Usr) (vt : String) :
    String × List MemVote :=
  memVoteCore votes obj.pk (get_user_id user) vt

/-- `MemoryVoteRepository.get_votes_for_object`. -/
def memVotesFor (votes : List MemVote) (obj : Obj) : List MemVote :=
  votes.filter (fun v => v.object_id = obj.pk)

/-- Specification-side description of the `"removed"` branch: the list
with the first `(object_id, user_id)` match deleted. -/
def memErasePair : List MemVote → Nat → Nat → List MemVote
  | [], _, _ => []
  | v :: rest, opk, upk =>
    if v.object_id = opk ∧ v.user_id = upk then rest
    else v :: memErasePair rest opk upk

/-- Specification-side description of the `"updated"` branch: the list
with the first `(object_id, user_id)` match's `vote_type` overwritten in
place. -/
def memSetPair : List MemVote → Nat → Nat → String → List MemVote
  | [], _, _, _ => []
  | v :: rest, opk, upk, vt =>
    if v.object_id = opk ∧ v.user_id = upk then
      { v with vote_type := vt } :: rest
    else v :: memSetPair rest opk upk vt

/-- `MemoryVoteRepository.get_user_vote(obj, user)`: a `None` user (and the
Python falsiness of `None`) or `getattr(user, 'is_authenticated', True)`
being false short-circuits to `None`; otherwise the first matching record's
`vote_type` is returned.  User objects themselves are always truthy. -/
def memGetUserVote (votes : List MemVote) (obj : Obj) (user : Option Usr) :
    Option String :=
  match user with
  | none => none
  | some u =>
    if (isAuthAttr u).getD true = false then none
    else (memScan votes obj.pk (get_user_id u)).map (·.vote_type)

/-! ## BaseVoteRepository aggregate queries (`core/repositories.py`, 44–69)

`get_upvotes` / `get_downvotes` filter the backend's
`get_votes_for_object` result by `getattr(v, 'vote_type', None)`;
`get_vote_count` is the plain length; `get_vote_score` is
`len(upvotes) - len(downvotes)`.  Instantiated once per record type since
the attribute lookup behaves differently on dicts and model rows. -/

def memGetUpvotes (votes : List MemVote) (obj : Obj) : List MemVote :=
  (memVotesFor votes obj).filter (fun v => memVoteTypeAttr v = some "up")

def memGetDownvotes (votes : List MemVote) (obj : Obj) : List MemVote :=
  (memVotesFor votes obj).filter (fun v => memVoteTypeAttr v = some "down")

/-- `BaseVoteRepository.get_vote_count` for the memory backend. -/
def memVoteCount (votes : List MemVote) (obj : Obj) : Nat :=
  (memVotesFor votes obj).length

/-- `BaseVoteRepository.get_vote_score` for the memory backend. -/
def memVoteScore (votes : List MemVote) (obj : Obj) : Int :=
  ((memGetUpvotes votes obj).length : Int) - (memGetDownvotes votes obj).length

/-! ## DjangoVoteRepository (`core/repositories.py`, lines 72–104)

`Vote.objects.get(user=..., content_type=..., object_id=...)` retrieves the
unique matching row — the `unique_together` constraint on the `Vote` model
(exercised by `votes/tests.py::test_unique_together_constraint`) guarantees
at most one, so the first match of a scan is the faithful embedding. -/

def djVoteAux (votes : List DjVote) (ct opk upk : Nat) (vt : String) :
    Option (String × List DjVote) :=
  match votes with
  | [] => none
  | v :: rest =>
    if v.ctype = ct ∧ v.object_id = opk ∧ v.user_id = upk then
      if v.vote_type = vt then
        some ("removed", rest)
      else
        some ("updated", { v with vote_type := vt } :: rest)
    else
      match djVoteAux rest ct opk upk vt with
      | some (k, rest') => some (k, v :: rest')
      | none => none

/-- `DjangoVoteRepository.vote` on raw keys: `Vote.objects.get` followed by
delete / in-place update, or `Vote.objects.create` on `DoesNotExist`. -/
def djVoteCore (votes : List DjVote) (ct opk upk : Nat) (vt : String) :
    String × List DjVote :=
  match djVoteAux votes ct opk upk vt with
  | some r => r
  | none => ("added", votes ++ [⟨ct, opk, upk, vt⟩])

/-- `DjangoVoteRepository.vote(obj, user, vote_type)`. -/
def djVote (votes : List DjVote) (obj : Obj) (user : Usr) (vt : String) :
    String × List DjVote :=
  djVoteCore votes obj.ctype obj.pk user.pk vt

/-- `DjangoVoteRepository.get_votes_for_object`. -/
def djVotesFor (votes : List DjVote) (obj : Obj) : List DjVote :=
  votes.filter (fun v => v.ctype = obj.ctype ∧ v.object_id = obj.pk)

/-- The `Vote.objects.get` scan of `DjangoVoteRepository.get_user_vote`. -/
def djScan : List DjVote → Nat → Nat → Nat → Option DjVote
  | [], _, _, _ => none
  | v :: rest, ct, opk, upk =>
    if v.ctype = ct ∧ v.object_id = opk ∧ v.user_id = upk then some v
    else djScan rest ct opk upk

/-- Specification-side description of the Django `"removed"` branch. -/
def djErasePair : List DjVote → Nat → Nat → Nat → List DjVote
  | [], _, _, _ => []
  | v :: rest, ct, opk, upk =>
    if v.ctype = ct ∧ v.object_id = opk ∧ v.user_id = upk then rest
    else v :: djErasePair rest ct opk upk

/-- Specification-side description of the Django `"updated"` branch. -/
def djSetPair : List DjVote → Nat → Nat → Nat → String → List DjVote
  | [], _, _, _, _ => []
  | v :: rest, ct, opk, upk, vt =>
    if v.ctype = ct ∧ v.object_id = opk ∧ v.user_id = upk then
      { v with vote_type := vt } :: rest
    else v :: djSetPair rest ct opk upk vt

/-- `DjangoVoteRepository.get_user_vote(obj, user)`: `user is None or not
user.is_authenticated` short-circuits to `None`; reading
`user.is_authenticated` on an object without the attribute raises
`AttributeError` (`Except.error`). -/
def djGetUserVote (votes : List DjVote) (obj : Obj) (user : Option Usr) :
    Except Unit (Option String) :=
  match user with
  | none => .ok none
  | some u =>
    match isAuthAttr u with
    | none => .error ()
    | some auth =>
      if auth = false then .ok none
      else .ok ((djScan votes obj.ctype obj.pk u.pk).map (·.vote_type))

def djGetUpvotes (votes : List DjVote) (obj : Obj) : List DjVote :=
  (djVotesFor votes obj).filter (fun v => djVoteTypeAttr v = some "up")

def djGetDownvotes (votes : List DjVote) (obj : Obj) : List DjVote :=
  (djVotesFor votes obj).filter (fun v => djVoteTypeAttr v = some "down")

/-- `BaseVoteRepository.get_vote_count` for the Django backend. -/
def djVoteCount (votes : List DjVote) (obj : Obj) : Nat :=
  (djVotesFor votes obj).length

/-- `BaseVoteRepository.get_vote_score` for the Django backend. -/
def djVoteScore (votes : List DjVote) (obj : Obj) : Int :=
  ((djGetUpvotes votes obj).length : Int) - (djGetDownvotes votes obj).length

/-! ## CachedVoteRepository (`core/repositories.py`, lines 155–201)

The Django cache is a global string-keyed store.  `_get_cache_key` builds
`f"votes:{obj.__class__.__name__}:{obj.pk}:{suffix}"` with suffix `"all"`
or `f"user:{user.pk}"`; since class names contain no `":"`, that format is
injective in `(className, pk, suffix)`, so the cache is embedded with the
structured keys `(className, pk)` and `(className, pk, userPk)` directly.
`cache.get` returns `None` on a miss; a stored `None` user-vote is
therefore indistinguishable from a miss (`if cached is not None`). -/

structure Cache where
  allC : List ((String × Nat) × List DjVote)
  userC : List ((String × Nat × Nat) × Option String)
deriving DecidableEq, Repr

/-- The cached backend's state: the underlying Django vote table plus the
shared cache. -/
structure CState where
  votes : List DjVote
  cache : Cache
deriving DecidableEq, Repr

def emptyCache : Cache := ⟨[], []⟩

/-- `cache.set` for the `"all"` key (replace-or-insert). -/
def cacheSetAll (c : Cache) (k : String × Nat) (vs : List DjVote) : Cache :=
  { c with allC := (k, vs) :: c.allC.filter (fun e => ¬ e.1 = k) }

/-- `cache.set` for a `"user:{pk}"` key. -/
def cacheSetUser (c : Cache) (k : String × Nat × Nat) (vt : Option String) :
    Cache :=
  { c with userC := (k, vt) :: c.userC.filter (fun e => ¬ e.1 = k) }

/-- `CachedVoteRepository._invalidate_cache`: `cache.delete_many` of the
target's `"all"` key and the (target, user) key. -/
def cacheInvalidate (c : Cache) (obj : Obj) (user : Usr) : Cache :=
  { allC := c.allC.filter (fun e => ¬ e.1 = (obj.className, obj.pk)),
    userC := c.userC.filter (fun e => ¬ e.1 = (obj.className, obj.pk, user.pk)) }

/-- `CachedVoteRepository.get_votes_for_object`: read-through on the
`"all"` key.  Returns the value together with the updated state. -/
def cachedVotesFor (st : CState) (obj : Obj) : List DjVote × CState :=
  match st.cache.allC.find? (fun e => e.1 = (obj.className, obj.pk)) with
  | some e => (e.2, st)
  | none =>
    let vs := djVotesFor st.votes obj
    (vs, { st with cache := cacheSetAll st.cache (obj.className, obj.pk) vs })

/-- `CachedVoteRepository.get_user_vote`: the same authentication gate as
the Django backend, then a read-through on the user key; a cached `None`
(`.some none` entry) fails the `cached is not None` test and is recomputed. -/
def cachedGetUserVote (st : CState) (obj : Obj) (user : Option Usr) :
    Except Unit (Option String × CState) :=
  match user with
  | none => .ok (none, st)
  | some u =>
    match isAuthAttr u with
    | none => .error ()
    | some auth =>
      if auth = false then .ok (none, st)
      else
        match st.cache.userC.find?
            (fun e => e.1 = (obj.className, obj.pk, u.pk)) with
        | some (_, some vt) => .ok (some vt, st)
        | _ =>
          match djGetUserVote st.votes obj (some u) with
          | .error e => .error e
          | .ok vt =>
            .ok (vt, { st with
              cache := cacheSetUser st.cache (obj.className, obj.pk, u.pk) vt })

/-- `CachedVoteRepository.vote`: delegate to `DjangoVoteRepository.vote`,
then invalidate both cache keys. -/
def cachedVote (st : CState) (obj : Obj) (user : Usr) (vt : String) :
    String × CState :=
  let r := djVote st.votes obj user vt
  (r.1, { votes := r.2, cache := cacheInvalidate st.cache obj user })

/-- `BaseVoteRepository.get_upvotes` through the caching backend
(`get_votes_for_object` is the overridden, cache-mutating one). -/
def cachedGetUpvotes (st : CState) (obj : Obj) : List DjVote × CState :=
  let r := cachedVotesFor st obj
  (r.1.filter (fun v => djVoteTypeAttr v = some "up"), r.2)

def cachedGetDownvotes (st : CState) (obj : Obj) : List DjVote × CState :=
  let r := cachedVotesFor st obj
  (r.1.filter (fun v => djVoteTypeAttr v = some "down"), r.2)

/-- `BaseVoteRepository.get_vote_score` through the caching backend: the
two filters each call the cached `get_votes_for_object`, threading the
cache. -/
def cachedVoteScore (st : CState) (obj : Obj) : Int × CState :=
  let up := cachedGetUpvotes st obj
  let down := cachedGetDownvotes up.2 obj
  ((up.1.length : Int) - down.1.length, down.2)

/-! ## `core/base.py` — `BaseVoteQuery` (lines 68–89)

A second, independent base class with the same aggregate queries; its
`get_vote_count` returns `len(upvotes) - len(downvotes)` — unlike
`repositories.BaseVoteRepository.get_vote_count`, which returns
`len(votes)`.  Both are embedded as functions of the fetched
`get_votes_for_object` result (the abstract method's value), for rows with
a real `vote_type` attribute. -/

def baseQueryUpvotes (vs : List DjVote) : List DjVote :=
  vs.filter (fun v => djVoteTypeAttr v = some "up")

def baseQueryDownvotes (vs : List DjVote) : List DjVote :=
  vs.filter (fun v => djVoteTypeAttr v = some "down")

/-- `base.BaseVoteQuery.get_vote_count`. -/
def baseQueryVoteCount (vs : List DjVote) : Int :=
  ((baseQueryUpvotes vs).length : Int) - (baseQueryDownvotes vs).length

/-- `base.BaseVoteQuery.get_vote_score`. -/
def baseQueryVoteScore (vs : List DjVote) : Int :=
  ((baseQueryUpvotes vs).length : Int) - (baseQueryDownvotes vs).length

/-- `repositories.BaseVoteRepository.get_vote_count` as a function of the
same fetched votes list. -/
def baseRepoVoteCount (vs : List DjVote) : Nat := vs.length

/-! ## `core/calculators.py` — `BasicReputationCalculator` -/

/-- Modelled from the spec: the repository imports `REPUTATION_RULES` from
`core/rep_rules.py`, which is not under `src/`; the entries follow the
example rule table of spec §3 (`{question+upvote: +10, question+downvote:
-2, answer+upvote: +10, answer+accepted: +15, review+upvote: +5, …}`) and
the keys used by `users/views.py`. -/
def REPUTATION_RULES : List (String × Int) :=
  [("question_upvote", 10), ("question_downvote", -2),
   ("answer_upvote", 10), ("answer_accepted", 15),
   ("review_upvote", 5)]

/-- `REPUTATION_RULES.get(key, 0)`. -/
def rulesGet (key : String) : Int :=
  (((REPUTATION_RULES.find? (fun p => p.1 = key)).map (·.2))).getD 0

/-- `BasicReputationCalculator.calculate(model_name, vote_type, **kwargs)`.
`removed : Bool` is the truthiness of `kwargs.get("removed")`;
`new_vote_type : Option String` is `kwargs.get("new_vote_type")`, whose
empty string is falsy like a missing key.  `old_suffix` in the source is
recomputed identically to `vote_suffix`. -/
def calculate (model_name vote_type : String) (removed : Bool)
    (new_vote_type : Option String) : Int :=
  let mn := if model_name = "coursereview" then "review" else model_name
  let vote_suffix := if vote_type = "up" then "upvote" else "downvote"
  let reputation_key := mn ++ "_" ++ vote_suffix
  if removed then
    -(rulesGet reputation_key)
  else
    match new_vote_type with
    | some nvt =>
      if nvt = "" then rulesGet reputation_key
      else
        let new_suffix := if nvt = "up" then "upvote" else "downvote"
        rulesGet (mn ++ "_" ++ new_suffix) - rulesGet (mn ++ "_" ++ vote_suffix)
    | none => rulesGet reputation_key

/-! ## `core/services.py` and `core/mixins.py`

`VoteableMixin` orchestrates the default repository
(`vote_repository_class = DjangoVoteRepository`), the default calculator
(`BasicReputationCalculator`) and `ReputationService`.  The system state is
the Django vote table plus each author's `profile.reputation_points`
(an association list keyed by user pk, absent entries read as the stored
initial balance 0). -/

structure Sys where
  votes : List DjVote
  rep : List (Nat × Int)
deriving DecidableEq, Repr

def repGet (rep : List (Nat × Int)) (pk : Nat) : Int :=
  (((rep.find? (fun p => p.1 = pk)).map (·.2))).getD 0

/-- `profile.reputation_points += points; profile.save()`. -/
def repAdd (rep : List (Nat × Int)) (pk : Nat) (points : Int) :
    List (Nat × Int) :=
  (pk, repGet rep pk + points) :: rep.filter (fun p => ¬ p.1 = pk)

/-- `ReputationService.apply_reputation_change(profile, points)`. -/
def applyReputationChange (rep : List (Nat × Int)) (pk : Nat) (points : Int) :
    List (Nat × Int) :=
  if points ≠ 0 then repAdd rep pk points else rep

/-- Django model equality (`self.author == user`) compares the concrete
class and the primary key; both sides here are users, so it is pk
equality. -/
def usrEq (a b : Usr) : Bool := a.pk = b.pk

/-- `VoteableMixin._handle_reputation` followed by
`_apply_reputation_change` (`core/mixins.py`, lines 93–111), for a target
whose `author` attribute exists (pk `authorPk`).  `old` is
`old_vote_type`; when it is `None` the source still passes it to
`calculate`, where `None == "up"` is `False` — the same branch as any
non-`"up"` string, so `old.getD ""` is observationally identical.
`model_name` is `self.__class__.__name__.lower()`. -/
def handleReputation (rep : List (Nat × Int)) (authorPk : Nat)
    (className : String) (result : String) (old : Option String)
    (newVt : String) : List (Nat × Int) :=
  let mn := className.toLower
  let points :=
    if result = "removed" then calculate mn (old.getD "") true none
    else if result = "updated" then calculate mn (old.getD "") false (some newVt)
    else calculate mn newVt false none
  if points ≠ 0 then applyReputationChange rep authorPk points else rep

/-- `VoteableMixin.vote(user, vote_type)` (`core/mixins.py`, lines 77–91)
over the default Django repository.  Reading `user.is_authenticated` on an
object without the attribute is an `AttributeError` (`Except.error`). -/
def mixinVote (s : Sys) (tgt : Obj) (user : Option Usr) (vt : String) :
    Except Unit (String × Sys) :=
  match user with
  | none => .ok ("unauthorized", s)
  | some u =>
    match isAuthAttr u with
    | none => .error ()
    | some auth =>
      if auth = false then .ok ("unauthorized", s)
      else if tgt.author.any (fun a => usrEq a u) then .ok ("self_vote", s)
      else
        match djGetUserVote s.votes tgt (some u) with
        | .error e => .error e
        | .ok old =>
          let r := djVote s.votes tgt u vt
          let rep' :=
            match tgt.author with
            | some a =>
              if ¬ usrEq a u then
                handleReputation s.rep a.pk tgt.className r.1 old vt
              else s.rep
            | none => s.rep
          .ok (r.1, ⟨r.2, rep'⟩)

/-! ## Operation sequences

A command is one `castVote(target, actor, polarity)` call; runs start from
the empty ledger, mirroring spec §8's "identical operation sequence against
the in-memory, persistent, and caching backend variants". -/

structure Cmd where
  obj : Obj
  user : Usr
  vt : String
deriving DecidableEq, Repr

def memRun : List Cmd → List MemVote → List String × List MemVote
  | [], vs => ([], vs)
  | c :: cs, vs =>
    let r := memVote vs c.obj c.user c.vt
    let rest := memRun cs r.2
    (r.1 :: rest.1, rest.2)

def djRun : List Cmd → List DjVote → List String × List DjVote
  | [], vs => ([], vs)
  | c :: cs, vs =>
    let r := djVote vs c.obj c.user c.vt
    let rest := djRun cs r.2
    (r.1 :: rest.1, rest.2)

def cachedRun : List Cmd → CState → List String × CState
  | [], st => ([], st)
  | c :: cs, st =>
    let r := cachedVote st c.obj c.user c.vt
    let rest := cachedRun cs r.2
    (r.1 :: rest.1, rest.2)

/-! ## Uniqueness-invariant vocabulary (spec §3, claims C4) -/

/-- Number of memory records for one `(target pk, actor pk)` pair. -/
def memPairCount (vs : List MemVote) (opk upk : Nat) : Nat :=
  vs.countP (fun v => v.object_id = opk ∧ v.user_id = upk)

/-- At most one memory record per `(target, actor)` pair (target identity
in the memory backend is the numeric `object_id`). -/
def memOnePerPair (vs : List MemVote) : Prop :=
  ∀ opk upk, memPairCount vs opk upk ≤ 1

/-- Number of Django rows for one `(content type, target pk, actor pk)`
triple. -/
def djPairCount (vs : List DjVote) (ct opk upk : Nat) : Nat :=
  vs.countP (fun v => v.ctype = ct ∧ v.object_id = opk ∧ v.user_id = upk)

/-- At most one Django row per `(actor, target)` pair (target identity in
the persistent backend is content type plus numeric id). -/
def djOnePerPair (vs : List DjVote) : Prop :=
  ∀ ct opk upk, djPairCount vs ct opk upk ≤ 1

/-! ## A `MemoryVoteRepository` instance (claim C10)

`__init__` creates the per-instance `self.votes`; the class attribute
`_shared_votes` is a distinct list.  `reset()` clears only the class
attribute; `get_votes_for_object`, `get_user_vote` and `vote` read and
write only `self.votes`. -/

structure MemRepo where
  votes : List MemVote
  shared : List MemVote
deriving DecidableEq, Repr

/-- `MemoryVoteRepository.reset()`: `cls._shared_votes.clear()`. -/
def memRepoReset (r : MemRepo) : MemRepo := { r with shared := [] }

/-- `get_votes_for_object` on an instance. -/
def memRepoVotesFor (r : MemRepo) (obj : Obj) : List MemVote :=
  memVotesFor r.votes obj

/-- `get_user_vote` on an instance. -/
def memRepoUserVote (r : MemRepo) (obj : Obj) (user : Option Usr) :
    Option String :=
  memGetUserVote r.votes obj user

/-- `get_vote_score` on an instance. -/
def memRepoScore (r : MemRepo) (obj : Obj) : Int :=
  memVoteScore r.votes obj

/-! ## Concrete test fixtures

`qObj`/`aObj` are two targets of different model classes that share the
numeric id 1; `voter` is an ordinary authenticated user. -/

def voter : Usr := ⟨7, true, true⟩

def qObj : Obj := ⟨1, 1, "Question", none⟩

def aObj : Obj := ⟨2, 1, "Answer", none⟩

/-- A question authored by `voter`. -/
def ownObj : Obj := ⟨1, 3, "Question", some voter⟩

/-- A user whose `is_authenticated` attribute is `False`. -/
def anonUser : Usr := ⟨9, true, false⟩

/-! # Theorems

## Characterization of the two `vote` mutators -/

theorem memVoteAux_of_scan_none (vs : List MemVote) (opk upk : Nat)
    (vt : String) (h : memScan vs opk upk = none) :
    memVoteAux vs opk upk vt = none := by
  induction vs with
  | nil => rfl
  | cons v rest ih =>
    by_cases hv : v.object_id = opk ∧ v.user_id = upk
    · simp [memScan, hv] at h
    · simp only [memScan, if_neg hv] at h
      simp [memVoteAux, hv, ih h]

theorem memVoteAux_of_scan_same (vs : List MemVote) (opk upk : Nat)
    (vt : String) (v : MemVote) (h : memScan vs opk upk = some v)
    (hvt : v.vote_type = vt) :
    memVoteAux vs opk upk vt = some ("removed", memErasePair vs opk upk) := by
  induction vs with
  | nil => simp [memScan] at h
  | cons w rest ih =>
    by_cases hw : w.object_id = opk ∧ w.user_id = upk
    · simp only [memScan, if_pos hw, Option.some.injEq] at h
      subst h
      simp [memVoteAux, memErasePair, hw, hvt]
    · simp only [memScan, if_neg hw] at h
      simp [memVoteAux, memErasePair, hw, ih h]

theorem memVoteAux_of_scan_diff (vs : List MemVote) (opk upk : Nat)
    (vt : String) (v : MemVote) (h : memScan vs opk upk = some v)
    (hvt : v.vote_type ≠ vt) :
    memVoteAux vs opk upk vt =
      some ("updated", memSetPair vs opk upk vt) := by
  induction vs with
  | nil => simp [memScan] at h
  | cons w rest ih =>
    by_cases hw : w.object_id = opk ∧ w.user_id = upk
    · simp only [memScan, if_pos hw, Option.some.injEq] at h
      subst h
      simp [memVoteAux, memSetPair, hw, hvt]
    · simp only [memScan, if_neg hw] at h
      simp [memVoteAux, memSetPair, hw, ih h]

theorem djVoteAux_of_scan_none (vs : List DjVote) (ct opk upk : Nat)
    (vt : String) (h : djScan vs ct opk upk = none) :
    djVoteAux vs ct opk upk vt = none := by
  induction vs with
  | nil => rfl
  | cons v rest ih =>
    by_cases hv : v.ctype = ct ∧ v.object_id = opk ∧ v.user_id = upk
    · simp [djScan, hv] at h
    · simp only [djScan, if_neg hv] at h
      simp [djVoteAux, hv, ih h]

theorem djVoteAux_of_scan_same (vs : List DjVote) (ct opk upk : Nat)
    (vt : String) (v : DjVote) (h : djScan vs ct opk upk = some v)
    (hvt : v.vote_type = vt) :
    djVoteAux vs ct opk upk vt =
      some ("removed", djErasePair vs ct opk upk) := by
  induction vs with
  | nil => simp [djScan] at h
  | cons w rest ih =>
    by_cases hw : w.ctype = ct ∧ w.object_id = opk ∧ w.user_id = upk
    · simp only [djScan, if_pos hw, Option.some.injEq] at h
      subst h
      simp [djVoteAux, djErasePair, hw, hvt]
    · simp only [djScan, if_neg hw] at h
      simp [djVoteAux, djErasePair, hw, ih h]

theorem djVoteAux_of_scan_diff (vs : List DjVote) (ct opk upk : Nat)
    (vt : String) (v : DjVote) (h : djScan vs ct opk upk = some v)
    (hvt : v.vote_type ≠ vt) :
    djVoteAux vs ct opk upk vt =
      some ("updated", djSetPair vs ct opk upk vt) := by
  induction vs with
  | nil => simp [djScan] at h
  | cons w rest ih =>
    by_cases hw : w.ctype = ct ∧ w.object_id = opk ∧ w.user_id = upk
    · simp only [djScan, if_pos hw, Option.some.injEq] at h
      subst h
      simp [djVoteAux, djSetPair, hw, hvt]
    · simp only [djScan, if_neg hw] at h
      simp [djVoteAux, djSetPair, hw, ih h]

/-- Claim C1: for every actor and target, `castVote` in both ledger backends
(`MemoryVoteRepository.vote`, `DjangoVoteRepository.vote`) follows the
transition table: no existing vote by the actor on the target ⇒ a new
record with the requested polarity is inserted and `"added"` is returned;
an existing vote of the same polarity ⇒ that record is deleted and
`"removed"` is returned; an existing vote of a different polarity ⇒ the
record's `vote_type` is overwritten in place and `"updated"` is returned. -/
theorem castVote_transition_table (vs : List MemVote) (ws : List DjVote)
    (o : Obj) (u : Usr) (p : String) :
    (memScan vs o.pk u.pk = none →
      memVote vs o u p = ("added", vs ++ [⟨u.pk, o.pk, p⟩])) ∧
    (∀ v, memScan vs o.pk u.pk = some v → v.vote_type = p →
      memVote vs o u p = ("removed", memErasePair vs o.pk u.pk)) ∧
    (∀ v, memScan vs o.pk u.pk = some v → v.vote_type ≠ p →
      memVote vs o u p = ("updated", memSetPair vs o.pk u.pk p)) ∧
    (djScan ws o.ctype o.pk u.pk = none →
      djVote ws o u p = ("added", ws ++ [⟨o.ctype, o.pk, u.pk, p⟩])) ∧
    (∀ v, djScan ws o.ctype o.pk u.pk = some v → v.vote_type = p →
      djVote ws o u p = ("removed", djErasePair ws o.ctype o.pk u.pk)) ∧
    (∀ v, djScan ws o.ctype o.pk u.pk = some v → v.vote_type ≠ p →
      djVote ws o u p = ("updated", djSetPair ws o.ctype o.pk u.pk p)) := by
  refine ⟨fun h => ?_, fun v h hv => ?_, fun v h hv => ?_,
          fun h => ?_, fun v h hv => ?_, fun v h hv => ?_⟩
  · simp [memVote, memVoteCore, get_user_id,
      memVoteAux_of_scan_none _ _ _ _ h]
  · simp [memVote, memVoteCore, get_user_id,
      memVoteAux_of_scan_same _ _ _ _ _ h hv]
  · simp [memVote, memVoteCore, get_user_id,
      memVoteAux_of_scan_diff _ _ _ _ _ h hv]
  · simp [djVote, djVoteCore, djVoteAux_of_scan_none _ _ _ _ _ h]
  · simp [djVote, djVoteCore, djVoteAux_of_scan_same _ _ _ _ _ _ h hv]
  · simp [djVote, djVoteCore, djVoteAux_of_scan_diff _ _ _ _ _ _ h hv]

/-- Witness for `castVote_transition_table` at concrete inputs: a repeated
up-vote toggles off, and a vote on a fresh pair inserts. -/
theorem castVote_transition_table_witness :
    memVote [⟨7, 1, "up"⟩] qObj voter "up" =
      ("removed", memErasePair [⟨7, 1, "up"⟩] qObj.pk voter.pk) ∧
    djVote [] qObj voter "down" =
      ("added", [] ++ [⟨qObj.ctype, qObj.pk, voter.pk, "down"⟩]) :=
  ⟨(castVote_transition_table [⟨7, 1, "up"⟩] [] qObj voter "up").2.1
      ⟨7, 1, "up"⟩ (by decide) (by decide),
   (castVote_transition_table [] [] qObj voter "down").2.2.2.1 (by decide)⟩

/-! ## Uniqueness invariant (C4) -/

theorem memScan_none_pairCount (vs : List MemVote) (opk upk : Nat)
    (h : memScan vs opk upk = none) : memPairCount vs opk upk = 0 := by
  induction vs with
  | nil => rfl
  | cons w rest ih =>
    by_cases hw : w.object_id = opk ∧ w.user_id = upk
    · simp [memScan, hw] at h
    · simp only [memScan, if_neg hw] at h
      simp [memPairCount, List.countP_cons, hw] at ih ⊢
      exact ih h

theorem memPairCount_erase_le (vs : List MemVote) (opk upk q q' : Nat) :
    memPairCount (memErasePair vs opk upk) q q' ≤ memPairCount vs q q' := by
  induction vs with
  | nil => simp [memErasePair]
  | cons w rest ih =>
    by_cases hw : w.object_id = opk ∧ w.user_id = upk
    · simp only [memErasePair, if_pos hw]
      simp [memPairCount, List.countP_cons]
    · simp only [memErasePair, if_neg hw]
      simp only [memPairCount, List.countP_cons] at ih ⊢
      omega

theorem memPairCount_setPair (vs : List MemVote) (opk upk : Nat)
    (vt : String) (q q' : Nat) :
    memPairCount (memSetPair vs opk upk vt) q q' = memPairCount vs q q' := by
  induction vs with
  | nil => rfl
  | cons w rest ih =>
    by_cases hw : w.object_id = opk ∧ w.user_id = upk
    · simp only [memSetPair, if_pos hw]
      simp [memPairCount, List.countP_cons]
    · simp only [memSetPair, if_neg hw]
      simp only [memPairCount, List.countP_cons] at ih ⊢
      omega

theorem memVoteCore_onePerPair (vs : List MemVote) (opk upk : Nat)
    (vt : String) (h : memOnePerPair vs) :
    memOnePerPair (memVoteCore vs opk upk vt).2 := by
  intro q q'
  cases hscan : memScan vs opk upk with
  | none =>
    rw [memVoteCore, memVoteAux_of_scan_none _ _ _ _ hscan]
    have h0 := memScan_none_pairCount vs opk upk hscan
    have h1 := h q q'
    simp only [memPairCount, List.countP_append, List.countP_cons,
      List.countP_nil, decide_eq_true_eq] at h0 h1 ⊢
    by_cases hq : opk = q ∧ upk = q'
    · obtain ⟨rfl, rfl⟩ := hq
      simp only [and_self, if_true, if_pos]
      omega
    · simp only [hq, if_false, if_neg]
      omega
  | some v =>
    by_cases hvt : v.vote_type = vt
    · rw [memVoteCore, memVoteAux_of_scan_same _ _ _ _ _ hscan hvt]
      exact le_trans (memPairCount_erase_le vs opk upk q q') (h q q')
    · rw [memVoteCore, memVoteAux_of_scan_diff _ _ _ _ _ hscan hvt]
      rw [memPairCount_setPair]
      exact h q q'

theorem djScan_none_pairCount (vs : List DjVote) (ct opk upk : Nat)
    (h : djScan vs ct opk upk = none) : djPairCount vs ct opk upk = 0 := by
  induction vs with
  | nil => rfl
  | cons w rest ih =>
    by_cases hw : w.ctype = ct ∧ w.object_id = opk ∧ w.user_id = upk
    · simp [djScan, hw] at h
    · simp only [djScan, if_neg hw] at h
      simp [djPairCount, List.countP_cons, hw] at ih ⊢
      exact ih h

theorem djPairCount_erase_le (vs : List DjVote) (ct opk upk c q q' : Nat) :
    djPairCount (djErasePair vs ct opk upk) c q q' ≤ djPairCount vs c q q' := by
  induction vs with
  | nil => simp [djErasePair]
  | cons w rest ih =>
    by_cases hw : w.ctype = ct ∧ w.object_id = opk ∧ w.user_id = upk
    · simp only [djErasePair, if_pos hw]
      simp [djPairCount, List.countP_cons]
    · simp only [djErasePair, if_neg hw]
      simp only [djPairCount, List.countP_cons] at ih ⊢
      omega

theorem djPairCount_setPair (vs : List DjVote) (ct opk upk : Nat)
    (vt : String) (c q q' : Nat) :
    djPairCount (djSetPair vs ct opk upk vt) c q q' =
      djPairCount vs c q q' := by
  induction vs with
  | nil => rfl
  | cons w rest ih =>
    by_cases hw : w.ctype = ct ∧ w.object_id = opk ∧ w.user_id = upk
    · simp only [djSetPair, if_pos hw]
      simp [djPairCount, List.countP_cons]
    · simp only [djSetPair, if_neg hw]
      simp only [djPairCount, List.countP_cons] at ih ⊢
      omega

theorem djVoteCore_onePerPair (vs : List DjVote) (ct opk upk : Nat)
    (vt : String) (h : djOnePerPair vs) :
    djOnePerPair (djVoteCore vs ct opk upk vt).2 := by
  intro c q q'
  cases hscan : djScan vs ct opk upk with
  | none =>
    rw [djVoteCore, djVoteAux_of_scan_none _ _ _ _ _ hscan]
    have h0 := djScan_none_pairCount vs ct opk upk hscan
    have h1 := h c q q'
    simp only [djPairCount, List.countP_append, List.countP_cons,
      List.countP_nil, decide_eq_true_eq] at h0 h1 ⊢
    by_cases hq : ct = c ∧ opk = q ∧ upk = q'
    · obtain ⟨rfl, rfl, rfl⟩ := hq
      simp only [and_self, if_true, if_pos]
      omega
    · simp only [hq, if_false, if_neg]
      omega
  | some v =>
    by_cases hvt : v.vote_type = vt
    · rw [djVoteCore, djVoteAux_of_scan_same _ _ _ _ _ _ hscan hvt]
      exact le_trans (djPairCount_erase_le vs ct opk upk c q q') (h c q q')
    · rw [djVoteCore, djVoteAux_of_scan_diff _ _ _ _ _ _ hscan hvt]
      rw [djPairCount_setPair]
      exact h c q q'

theorem memRun_onePerPair (ops : List Cmd) (vs : List MemVote)
    (h : memOnePerPair vs) : memOnePerPair (memRun ops vs).2 := by
  induction ops generalizing vs with
  | nil => exact h
  | cons c cs ih =>
    exact ih _ (memVoteCore_onePerPair _ _ _ _ h)

theorem djRun_onePerPair (ops : List Cmd) (vs : List DjVote)
    (h : djOnePerPair vs) : djOnePerPair (djRun ops vs).2 := by
  induction ops generalizing vs with
  | nil => exact h
  | cons c cs ih =>
    exact ih _ (djVoteCore_onePerPair _ _ _ _ _ h)

/-- Claim C4: in every ledger state reachable from the empty ledger by any
sequence of `castVote` operations, at most one vote record exists per
`(actor, target)` pair, in the in-memory backend and in the persistent
backend alike (the only operations ever performed on an existing pair's
record by `vote` being the in-place polarity overwrite and the deletion,
per `castVote_transition_table`). -/
theorem castVote_at_most_one_vote_per_pair (ops : List Cmd) :
    memOnePerPair (memRun ops []).2 ∧ djOnePerPair (djRun ops []).2 :=
  ⟨memRun_onePerPair ops [] (fun _ _ => by simp [memPairCount]),
   djRun_onePerPair ops [] (fun _ _ _ => by simp [djPairCount])⟩

/-! ## Up-vote round trip (C7) -/

theorem memScan_append_self (vs : List MemVote) (opk upk : Nat) (vt : String)
    (h : memScan vs opk upk = none) :
    memScan (vs ++ [⟨upk, opk, vt⟩]) opk upk = some ⟨upk, opk, vt⟩ := by
  induction vs with
  | nil => simp [memScan]
  | cons w rest ih =>
    by_cases hw : w.object_id = opk ∧ w.user_id = upk
    · simp [memScan, hw] at h
    · simp only [memScan, if_neg hw] at h
      simp only [List.cons_append, memScan, if_neg hw]
      exact ih h

theorem memErasePair_append (vs : List MemVote) (opk upk : Nat) (vt : String)
    (h : memScan vs opk upk = none) :
    memErasePair (vs ++ [⟨upk, opk, vt⟩]) opk upk = vs := by
  induction vs with
  | nil => simp [memErasePair]
  | cons w rest ih =>
    by_cases hw : w.object_id = opk ∧ w.user_id = upk
    · simp [memScan, hw] at h
    · simp only [memScan, if_neg hw] at h
      simp only [List.cons_append, memErasePair, if_neg hw]
      rw [List.append_eq, ih h]

/-- Claim C7, amended: for every actor `A` and target `T` *on which `A` has
no existing vote*, casting `up` twice in the memory ledger returns the
ledger to exactly its previous record list, so `voteOf(T, A)` is absent
afterwards and `scoreFor(T)` equals its value before the two calls. -/
theorem upvote_twice_roundtrip (vs : List MemVote) (o : Obj) (u : Usr)
    (h : memScan vs o.pk u.pk = none) :
    (memVote (memVote vs o u "up").2 o u "up").2 = vs ∧
    memGetUserVote (memVote (memVote vs o u "up").2 o u "up").2 o
      (some u) = none ∧
    memVoteScore (memVote (memVote vs o u "up").2 o u "up").2 o =
      memVoteScore vs o := by
  have h1 : memVote vs o u "up" = ("added", vs ++ [⟨u.pk, o.pk, "up"⟩]) := by
    simp [memVote, memVoteCore, get_user_id,
      memVoteAux_of_scan_none _ _ _ _ h]
  have h2 : memVote (vs ++ [⟨u.pk, o.pk, "up"⟩]) o u "up" =
      ("removed", memErasePair (vs ++ [⟨u.pk, o.pk, "up"⟩]) o.pk u.pk) := by
    simp [memVote, memVoteCore, get_user_id,
      memVoteAux_of_scan_same _ _ _ _ _ (memScan_append_self vs o.pk u.pk "up" h) rfl]
  have hst : (memVote (memVote vs o u "up").2 o u "up").2 = vs := by
    rw [h1]
    simp only [h2]
    exact memErasePair_append vs o.pk u.pk "up" h
  refine ⟨hst, ?_, by rw [hst]⟩
  rw [hst]
  simp [memGetUserVote, get_user_id, h]

/-- Witness for `upvote_twice_roundtrip`: a fresh `(actor, target)` pair in
a ledger holding an unrelated vote. -/
theorem upvote_twice_roundtrip_witness :
    memScan [⟨7, 2, "down"⟩] qObj.pk voter.pk = none ∧
    (memVote (memVote [⟨7, 2, "down"⟩] qObj voter "up").2 qObj voter "up").2 =
      [⟨7, 2, "down"⟩] :=
  ⟨by decide,
   (upvote_twice_roundtrip [⟨7, 2, "down"⟩] qObj voter (by decide)).1⟩

/-- Counterexample to **C7** as stated: when the actor *already has an
up-vote* on the target, the first `castVote(T,A,up)` toggles it off and the
second re-inserts it, so `voteOf(T,A)` afterwards is `some "up"`, not
absent. -/
theorem upvote_twice_with_prior_vote_not_absent :
    memGetUserVote
      (memVote (memVote [⟨7, 1, "up"⟩] qObj voter "up").2 qObj voter "up").2
      qObj (some voter) = some "up" := by decide

/-! ## The memory backend's aggregate score (C2, C8)

`MemoryVoteRepository` stores dict records, but the inherited
`BaseVoteRepository.get_upvotes`/`get_downvotes` filter with
`getattr(v, 'vote_type', None)`, which on a dict always yields `None`: the
filters are empty and the memory backend's `get_vote_score` is constantly
zero. -/

theorem memVoteScore_eq_zero (vs : List MemVote) (obj : Obj) :
    memVoteScore vs obj = 0 := by
  simp [memVoteScore, memGetUpvotes, memGetDownvotes, memVoteTypeAttr]

/-- Evaluation of **C8**'s failing input on the backend the claim cites
(`MemoryVoteRepository.vote` with the inherited
`BaseVoteRepository.get_vote_score`): from no prior vote, `up` then `down`
returns kind `"updated"` and leaves `voteOf = down` as the claim states,
but `scoreFor` is 0 both after the up-vote and after the change — a
decrease of 0, not 2 — because the `getattr`-based up/down filters see no
`vote_type` attribute on the backend's dict records. -/
theorem up_then_down_memory_score_unchanged :
    (memVote [] qObj voter "up").1 = "added" ∧
    (memVote (memVote [] qObj voter "up").2 qObj voter "down").1 =
      "updated" ∧
    memGetUserVote
      (memVote (memVote [] qObj voter "up").2 qObj voter "down").2 qObj
      (some voter) = some "down" ∧
    memVoteScore (memVote [] qObj voter "up").2 qObj = 0 ∧
    memVoteScore
      (memVote (memVote [] qObj voter "up").2 qObj voter "down").2 qObj =
      0 := by decide

/-- Evaluation of **C2**'s failing inputs.  The identical one-operation
sequence `castVote(qObj, voter, up)` yields the kind sequence `["added"]`
on all three backends, after which the persistent and caching backends
report `scoreFor = 1` while the in-memory backend reports `scoreFor = 0`
(see `memVoteScore_eq_zero`).  Moreover, for the two-operation sequence on
two targets of different content types sharing numeric id 1, the kind
sequences themselves diverge: the persistent backend keys votes by
`(content_type, object_id, user)` and answers `["added", "added"]`, while
the in-memory backend keys them by `object_id` alone and answers
`["added", "removed"]`. -/
theorem backend_substitutability_divergence :
    (memRun [⟨qObj, voter, "up"⟩] []).1 = ["added"] ∧
    (djRun [⟨qObj, voter, "up"⟩] []).1 = ["added"] ∧
    (cachedRun [⟨qObj, voter, "up"⟩] ⟨[], emptyCache⟩).1 = ["added"] ∧
    memVoteScore (memRun [⟨qObj, voter, "up"⟩] []).2 qObj = 0 ∧
    djVoteScore (djRun [⟨qObj, voter, "up"⟩] []).2 qObj = 1 ∧
    (cachedVoteScore (cachedRun [⟨qObj, voter, "up"⟩] ⟨[], emptyCache⟩).2
      qObj).1 = 1 ∧
    (djRun [⟨qObj, voter, "up"⟩, ⟨aObj, voter, "up"⟩] []).1 =
      ["added", "added"] ∧
    (memRun [⟨qObj, voter, "up"⟩, ⟨aObj, voter, "up"⟩] []).1 =
      ["added", "removed"] := by decide

/-! ## Mixin-level outcomes (C5, C6) -/

/-- Claim C5: when a target exposes an author and that author (an
authenticated actor) casts a vote of either polarity on their own target,
`VoteableMixin.vote` returns the kind `"self_vote"` and the system state
is returned untouched: no ledger write happens (so `voteOf` for the pair
stays absent and every count is unchanged) and no reputation change is
applied to any balance. -/
theorem self_vote_no_mutation (s : Sys) (tgt : Obj) (u a : Usr)
    (vt : String) (hattr : u.hasIsAuth = true) (hauth : u.isAuth = true)
    (ha : tgt.author = some a) (heq : a.pk = u.pk) :
    mixinVote s tgt (some u) vt = .ok ("self_vote", s) := by
  simp [mixinVote, isAuthAttr, hattr, hauth, ha, usrEq, heq]

/-- Witness for `self_vote_no_mutation`: `voter` up-votes their own
question. -/
theorem self_vote_no_mutation_witness :
    mixinVote ⟨[], []⟩ ownObj (some voter) "up" =
      .ok ("self_vote", ⟨[], []⟩) :=
  self_vote_no_mutation ⟨[], []⟩ ownObj voter voter "up" rfl rfl rfl rfl

/-- Claim C6: when the actor is absent (`None`) or carries
`is_authenticated = False`, `VoteableMixin.vote` returns the kind
`"unauthorized"` and the system state untouched: no ledger mutation and no
reputation change. -/
theorem unauthorized_no_mutation (s : Sys) (tgt : Obj) (vt : String)
    (u : Usr) (hattr : u.hasIsAuth = true) (hanon : u.isAuth = false) :
    mixinVote s tgt none vt = .ok ("unauthorized", s) ∧
    mixinVote s tgt (some u) vt = .ok ("unauthorized", s) := by
  exact ⟨rfl, by simp [mixinVote, isAuthAttr, hattr, hanon]⟩

/-- Witness for `unauthorized_no_mutation`: the anonymous fixture user. -/
theorem unauthorized_no_mutation_witness :
    mixinVote ⟨[], []⟩ qObj none "up" = .ok ("unauthorized", ⟨[], []⟩) ∧
    mixinVote ⟨[], []⟩ qObj (some anonUser) "up" =
      .ok ("unauthorized", ⟨[], []⟩) :=
  unauthorized_no_mutation ⟨[], []⟩ qObj "up" anonUser rfl rfl

/-! ## Reputation calculator (C3) -/

/-- Claim C3: `BasicReputationCalculator.calculate` is a pure function whose
result equals the rule-table value for `(category, direction)` when
neither flag is set; the negation of that base value when `removed=true`
(which takes priority, so `new_vote_type` is ignored there); the table
value of the new direction minus the table value of the old direction in
one call when a (truthy) `new_vote_type` is given; `0` — never an error —
whenever the `(category, direction)` key is absent from the table; and the
category alias `"coursereview"` is normalized to `"review"` before every
lookup. -/
theorem calculate_spec (c d q : String) (nv : Option String)
    (removed : Bool) (hq : q ≠ "") :
    calculate c d true nv = -(calculate c d false none) ∧
    calculate c d false (some q) =
      calculate c q false none - calculate c d false none ∧
    (REPUTATION_RULES.find? (fun p =>
        p.1 = (if c = "coursereview" then "review" else c) ++ "_" ++
          (if d = "up" then "upvote" else "downvote")) = none →
      calculate c d false none = 0 ∧ calculate c d true none = 0) ∧
    calculate "coursereview" d removed nv = calculate "review" d removed nv := by
  refine ⟨?_, ?_, fun h => ?_, ?_⟩
  · simp [calculate]
  · simp [calculate, hq]
  · constructor <;> simp [calculate, rulesGet, h]
  · simp [calculate]

/-- Witness for `calculate_spec` at concrete inputs: the polarity-change
delta for a question and the zero default for a category with no rule. -/
theorem calculate_spec_witness :
    calculate "question" "up" false (some "down") =
      calculate "question" "down" false none -
        calculate "question" "up" false none ∧
    calculate "blogpost" "up" false none = 0 :=
  ⟨(calculate_spec "question" "up" "down" none false (by decide)).2.1,
   ((calculate_spec "blogpost" "up" "down" none false (by decide)).2.2.1
      (by decide)).1⟩

/-! ## The two conflicting `get_vote_count` implementations (C9) -/

theorem countP_up_add_countP_down_le (vs : List DjVote) :
    vs.countP (fun w => w.vote_type = "up") +
      vs.countP (fun w => w.vote_type = "down") ≤ vs.length := by
  induction vs with
  | nil => simp
  | cons w rest ih =>
    by_cases b1 : w.vote_type = "up"
    · have b2 : ¬ w.vote_type = "down" := by rw [b1]; decide
      simp [List.countP_cons, b1, b2]
      omega
    · by_cases b2 : w.vote_type = "down"
      · simp [List.countP_cons, b1, b2]
        omega
      · simp [List.countP_cons, b1, b2]
        omega

/-- Claim C9: as functions of the same fetched vote list,
`repositories.BaseVoteRepository.get_vote_count` (inherited by all three
concrete backends) returns the total number of recorded votes, while
`base.BaseVoteQuery.get_vote_count` returns upvotes minus downvotes — the
very value of `get_vote_score` — and the two disagree on every vote state
containing at least one downvote. -/
theorem get_vote_count_implementations_disagree (vs : List DjVote) :
    baseQueryVoteCount vs = baseQueryVoteScore vs ∧
    ((∃ v ∈ vs, v.vote_type = "down") →
      (baseRepoVoteCount vs : Int) ≠ baseQueryVoteCount vs) := by
  constructor
  · rfl
  · rintro ⟨v, hv, hdown⟩
    have hq : baseQueryVoteCount vs =
        (vs.countP (fun w => w.vote_type = "up") : Int) -
          vs.countP (fun w => w.vote_type = "down") := by
      simp [baseQueryVoteCount, baseQueryUpvotes, baseQueryDownvotes,
        djVoteTypeAttr, ← List.countP_eq_length_filter]
    have hd1 : 0 < vs.countP (fun w => w.vote_type = "down") :=
      List.countP_pos_iff.mpr ⟨v, hv, by simp [hdown]⟩
    have hsum := countP_up_add_countP_down_le vs
    rw [hq, baseRepoVoteCount]
    intro hcontra
    omega

/-- Witness for `get_vote_count_implementations_disagree`: a single
down-vote makes the repository count 1 and the query count −1. -/
theorem get_vote_count_implementations_disagree_witness :
    (∃ v ∈ [(⟨1, 1, 7, "down"⟩ : DjVote)], v.vote_type = "down") ∧
    (baseRepoVoteCount [(⟨1, 1, 7, "down"⟩ : DjVote)] : Int) ≠
      baseQueryVoteCount [(⟨1, 1, 7, "down"⟩ : DjVote)] :=
  ⟨⟨⟨1, 1, 7, "down"⟩, by decide⟩,
   (get_vote_count_implementations_disagree [⟨1, 1, 7, "down"⟩]).2
     ⟨⟨1, 1, 7, "down"⟩, by decide⟩⟩

/-! ## `reset()` and instance state (C10) -/

/-- Claim C10: `MemoryVoteRepository.reset()` clears only the class-level
`_shared_votes` list, which none of `get_votes_for_object`,
`get_user_vote`, `get_vote_score` or `vote` reads or writes (they all work
on the per-instance `self.votes` created in `__init__`), so `reset()`
leaves every constructed instance's observable state unchanged. -/
theorem reset_leaves_instance_state_unchanged (r : MemRepo) (obj : Obj)
    (user : Option Usr) :
    (memRepoReset r).shared = [] ∧
    memRepoVotesFor (memRepoReset r) obj = memRepoVotesFor r obj ∧
    memRepoUserVote (memRepoReset r) obj user = memRepoUserVote r obj user ∧
    memRepoScore (memRepoReset r) obj = memRepoScore r obj :=
  ⟨rfl, rfl, rfl, rfl⟩
